import Mathlib

/-!
Verification development for the Doughboard dashboard server
(`src/server.js`).  The aggregation core is embedded shallowly:

* JS numbers are modelled as `JSNum := Option ℚ`, where `none` plays the
  role of IEEE `NaN`; every arithmetic operation propagates `none`
  (`NaN` is absorbing for `+`, `-`, `*`, `/`, including `NaN * 0 = NaN`).
* `parseFloat` is modelled on decimal strings: optional sign, integer
  digits, optional fractional digits; any string with no leading digits
  (after the optional sign / dot) parses to `none` (JS `NaN`).
* Missing object fields (`order.email`, `item.sku`, `row.SKU`, …) are
  `Option`s; JS truthiness for strings (the empty string is falsy) and
  for numbers (`0` and `NaN` are falsy) is modelled explicitly.
* A JS object used as a string-keyed map (`customCOGS`) is an
  association list with overwrite-on-insert and first-match lookup.
-/

/-- JS number: `none` is `NaN`, `some q` a (finite) numeric value. -/
abbrev JSNum : Type := Option ℚ

/-- JS addition; `NaN` is absorbing. -/
def jadd : JSNum → JSNum → JSNum
  | some a, some b => some (a + b)
  | _, _ => none

/-- JS subtraction; `NaN` is absorbing. -/
def jsub : JSNum → JSNum → JSNum
  | some a, some b => some (a - b)
  | _, _ => none

/-- JS multiplication; `NaN` is absorbing (in particular `NaN * 0 = NaN`). -/
def jmul : JSNum → JSNum → JSNum
  | some a, some b => some (a * b)
  | _, _ => none

/-- JS division by a positive integer (the only division the server
performs is `totalRevenue / orders.length` with a positive length). -/
def jdivN (x : JSNum) (n : ℕ) : JSNum :=
  x.map (fun a => a / (n : ℚ))

/-- JS truthiness of a possibly-missing number: `undefined`, `0` and
`NaN` are falsy, every other number is truthy. -/
def jsTruthy : Option ℚ → Bool
  | none => false
  | some q => decide (q ≠ 0)

/-- JS truthiness of a possibly-missing string: `undefined` and the
empty string are falsy. -/
def strTruthy : Option String → Bool
  | none => false
  | some s => decide (s ≠ "")

/-- Digit list to natural number, most significant digit first. -/
def digitsToNat (ds : List Char) : ℕ :=
  ds.foldl (fun a c => 10 * a + (c.toNat - 48)) 0

/-- Model of JS `parseFloat` on decimal strings: optional `+`/`-` sign,
run of integer digits, optional `.` and run of fractional digits
(trailing garbage is ignored, as `parseFloat` parses the longest valid
prefix).  A string contributing no digits at all yields `none` (`NaN`).
Exponent notation and `Infinity` are outside the model. -/
def parseFloat (s : String) : Option ℚ :=
  let cs := s.data
  let signAndRest : Bool × List Char :=
    match cs with
    | '-' :: rest => (true, rest)
    | '+' :: rest => (false, rest)
    | _ => (false, cs)
  let neg := signAndRest.1
  let body := signAndRest.2
  let ip := body.takeWhile Char.isDigit
  let rest := body.dropWhile Char.isDigit
  let fp : List Char :=
    match rest with
    | '.' :: r => r.takeWhile Char.isDigit
    | _ => []
  if ip.isEmpty && fp.isEmpty then none
  else
    let mag : ℚ := (digitsToNat ip : ℚ) + (digitsToNat fp : ℚ) / ((10 : ℚ) ^ fp.length)
    some (if neg then -mag else mag)

/-- `parseFloat` applied to a possibly-missing field
(`parseFloat(undefined)` is `NaN`). -/
def jsParse : Option String → Option ℚ
  | none => none
  | some s => parseFloat s

/-- Key used for the JS member access `customCOGS[sku]`: an `undefined`
`sku` is coerced to the property name `"undefined"`. -/
def skuKey : Option String → String
  | some s => s
  | none => "undefined"

/-- First-match lookup in an association list, the model of reading a
property of a JS object. -/
def lookupCOGS : List (String × ℚ) → String → Option ℚ
  | [], _ => none
  | (k, v) :: rest, key => if k = key then some v else lookupCOGS rest key

/-- Overwrite-or-append insertion, the model of `obj[key] = value`. -/
def insertCOGS : List (String × ℚ) → String → ℚ → List (String × ℚ)
  | [], k, v => [(k, v)]
  | (k0, v0) :: rest, k, v =>
      if k0 = k then (k, v) :: rest else (k0, v0) :: insertCOGS rest k v

/-- A Shopify order line item (`order.line_items[i]`): `sku` and `price`
may be absent, `price` is a decimal string, `quantity` an integer ≥ 0
(per the data model). -/
structure LineItem where
  sku : Option String
  quantity : ℕ
  price : Option String
deriving DecidableEq

/-- A Shopify order as consumed by `calculateDashboardMetrics`:
`total_price` is a decimal string, `email` may be absent. -/
structure Order where
  total_price : Option String
  email : Option String
  line_items : List LineItem
deriving DecidableEq

/-- Store settings (`storeSettings`): `defaultCOGSPercentage` may be
absent, `customCOGS` maps SKU to unit cost. -/
structure StoreSettings where
  defaultCOGSPercentage : Option ℚ
  customCOGS : List (String × ℚ)
deriving DecidableEq

/-- Result record of `calculateDashboardMetrics`. -/
structure DashboardMetrics where
  totalRevenue : JSNum
  totalCOGS : JSNum
  grossProfit : JSNum
  newCustomerRevenue : JSNum
  returningCustomerRevenue : JSNum
  orderCount : ℕ
  averageOrderValue : JSNum
deriving DecidableEq

/-- Unit COGS resolution for one line item, embedding
`let unitCOGS = 0; if (storeSettings?.customCOGS?.[sku]) … else if
(storeSettings?.defaultCOGSPercentage) … ` from `server.js` lines
248-253.  Note both guards are JS truthiness tests: a custom COGS of `0`
and a default percentage of `0` both fail their guard. -/
def itemUnitCOGS (storeSettings : Option StoreSettings) (item : LineItem) : JSNum :=
  let custom : Option ℚ :=
    storeSettings.bind (fun st => lookupCOGS st.customCOGS (skuKey item.sku))
  if jsTruthy custom then
    custom
  else if jsTruthy (storeSettings.bind (fun st => st.defaultCOGSPercentage)) then
    jmul (jsParse item.price)
      ((storeSettings.bind (fun st => st.defaultCOGSPercentage)).map (fun p => p / 100))
  else
    some (0 : ℚ)

/-- One line item's term `unitCOGS * quantity` accumulated into
`orderCOGS` (`server.js` line 255). -/
def itemContribution (storeSettings : Option StoreSettings) (item : LineItem) : JSNum :=
  jmul (itemUnitCOGS storeSettings item) (some (item.quantity : ℚ))

/-- The COGS of a single order: fold of `orderCOGS += unitCOGS * quantity`
over its line items, starting from `0`. -/
def orderCOGS (storeSettings : Option StoreSettings) (o : Order) : JSNum :=
  o.line_items.foldl (fun acc item => jadd acc (itemContribution storeSettings item))
    (some (0 : ℚ))

/-- Mutable accumulator of the `orders.forEach` loop in
`calculateDashboardMetrics`: the four running sums and the
`customerEmails` set (modelled as the list of emails added so far). -/
structure AggState where
  totalRevenue : JSNum
  totalCOGS : JSNum
  newCustomerRevenue : JSNum
  returningCustomerRevenue : JSNum
  customerEmails : List String
deriving DecidableEq

/-- Initial accumulator: all sums `0`, no customer emails seen. -/
def initState : AggState :=
  ⟨some 0, some 0, some 0, some 0, []⟩

/-- One iteration of the `orders.forEach` body (`server.js` lines
237-270): add the parsed `total_price` to `totalRevenue`, add the
order's COGS to `totalCOGS`, then classify the order's revenue as
new-customer or returning-customer revenue if `email` is truthy,
recording first occurrences in `customerEmails`. -/
def processOrder (storeSettings : Option StoreSettings) (s : AggState) (o : Order) :
    AggState :=
  let revenue := jsParse o.total_price
  let totalRevenue := jadd s.totalRevenue revenue
  let totalCOGS := jadd s.totalCOGS (orderCOGS storeSettings o)
  if strTruthy o.email then
    let e := o.email.getD ""
    if s.customerEmails.contains e then
      { totalRevenue := totalRevenue
        totalCOGS := totalCOGS
        newCustomerRevenue := s.newCustomerRevenue
        returningCustomerRevenue := jadd s.returningCustomerRevenue revenue
        customerEmails := s.customerEmails }
    else
      { totalRevenue := totalRevenue
        totalCOGS := totalCOGS
        newCustomerRevenue := jadd s.newCustomerRevenue revenue
        returningCustomerRevenue := s.returningCustomerRevenue
        customerEmails := e :: s.customerEmails }
  else
    { totalRevenue := totalRevenue
      totalCOGS := totalCOGS
      newCustomerRevenue := s.newCustomerRevenue
      returningCustomerRevenue := s.returningCustomerRevenue
      customerEmails := s.customerEmails }

/-- Embedding of `calculateDashboardMetrics(orders, storeSettings)`
(`server.js` lines 230-281). -/
def calculateDashboardMetrics (orders : List Order)
    (storeSettings : Option StoreSettings) : DashboardMetrics :=
  let s := orders.foldl (processOrder storeSettings) initState
  { totalRevenue := s.totalRevenue
    totalCOGS := s.totalCOGS
    grossProfit := jsub s.totalRevenue s.totalCOGS
    newCustomerRevenue := s.newCustomerRevenue
    returningCustomerRevenue := s.returningCustomerRevenue
    orderCount := orders.length
    averageOrderValue :=
      if orders.length > 0 then jdivN s.totalRevenue orders.length else some 0 }

/-- C1: the `grossProfit` field returned by `calculateDashboardMetrics`
is exactly `totalRevenue - totalCOGS` (the source computes it as that
very expression, so the identity holds for every order list and every
settings value, `NaN` cases included). -/
theorem c1_grossProfit (orders : List Order) (storeSettings : Option StoreSettings) :
    (calculateDashboardMetrics orders storeSettings).grossProfit =
      jsub (calculateDashboardMetrics orders storeSettings).totalRevenue
        (calculateDashboardMetrics orders storeSettings).totalCOGS := by
  rfl

/-! ### Basic lemmas about the JS arithmetic model -/

theorem jadd_zero_left (x : JSNum) : jadd (some 0) x = x := by
  cases x <;> simp [jadd]

theorem jadd_zero_right (x : JSNum) : jadd x (some 0) = x := by
  cases x <;> simp [jadd]

theorem jadd_assoc (x y z : JSNum) : jadd (jadd x y) z = jadd x (jadd y z) := by
  cases x <;> cases y <;> cases z <;> simp [jadd, add_assoc]

theorem jsTruthy_isSome {x : Option ℚ} (h : jsTruthy x = true) : x.isSome := by
  cases x <;> simp [jsTruthy] at h ⊢

/-- A truthy JS value is a nonzero number. -/
theorem jsTruthy_eq_some {x : Option ℚ} (h : jsTruthy x = true) :
    ∃ q, x = some q ∧ q ≠ 0 := by
  cases x with
  | none => simp [jsTruthy] at h
  | some q => exact ⟨q, rfl, by simpa [jsTruthy] using h⟩

/-! ### C2: custom COGS priority -/

/-- C2 (counterexample): a SKU mapped to `0` in `customCOGS` is NOT used
as the unit COGS — the guard `if (storeSettings?.customCOGS?.[sku])` is
a JS truthiness test, so a mapped cost of `0` falls through to the
default-percentage branch.  With `customCOGS = {X: 0}` and
`defaultCOGSPercentage = 50`, an item with SKU `X` and price `"10"` gets
unit COGS `5`, not the mapped `0`. -/
theorem c2_counterexample :
    lookupCOGS [("X", 0)] "X" = some 0 ∧
    itemUnitCOGS (some ⟨some 50, [("X", 0)]⟩) ⟨some "X", 1, some "10"⟩ = some 5 ∧
    ¬ itemUnitCOGS (some ⟨some 50, [("X", 0)]⟩) ⟨some "X", 1, some "10"⟩ = some 0 := by
  refine ⟨rfl, ?_, ?_⟩
  · simp [itemUnitCOGS, lookupCOGS, skuKey, jsTruthy, jsParse, parseFloat, digitsToNat, jmul]
    norm_num
  · simp [itemUnitCOGS, lookupCOGS, skuKey, jsTruthy, jsParse, parseFloat, digitsToNat, jmul]

/-- A nonzero custom-COGS hit wins over every other branch. -/
theorem customCOGS_hit (st : StoreSettings) (item : LineItem) (c : ℚ)
    (hc : lookupCOGS st.customCOGS (skuKey item.sku) = some c) (hne : c ≠ 0) :
    itemUnitCOGS (some st) item = some c := by
  simp [itemUnitCOGS, hc, jsTruthy, hne]

/-- C2 (amended): for every line item whose SKU is mapped to a NONZERO
unit cost in `settings.customCOGS`, `calculateDashboardMetrics` uses
that mapped cost as the item's unit COGS, regardless of
`defaultCOGSPercentage`.  (A mapped cost of `0` instead falls through to
the default-percentage branch.) -/
theorem c2_custom_nonzero (st : StoreSettings) (item : LineItem) (c : ℚ)
    (hc : lookupCOGS st.customCOGS (skuKey item.sku) = some c) (hne : c ≠ 0) :
    itemUnitCOGS (some st) item = some c :=
  customCOGS_hit st item c hc hne

/-- C2 (witness): with `customCOGS = {Y: 2}` and default percentage 50,
an item with SKU `Y` gets unit COGS exactly `2`. -/
theorem c2_witness :
    itemUnitCOGS (some ⟨some 50, [("Y", 2)]⟩) ⟨some "Y", 3, some "8"⟩ = some 2 :=
  c2_custom_nonzero ⟨some 50, [("Y", 2)]⟩ ⟨some "Y", 3, some "8"⟩ 2 rfl (by norm_num)

/-! ### C8: quantity-zero line items -/

/-- When the item's price parses to a number, the resolved unit COGS is
a number (never `NaN`), whatever branch is taken. -/
theorem itemUnitCOGS_isSome (storeSettings : Option StoreSettings) (item : LineItem)
    (hp : (jsParse item.price).isSome) : (itemUnitCOGS storeSettings item).isSome := by
  obtain ⟨p, hp2⟩ := Option.isSome_iff_exists.mp hp
  by_cases h1 : jsTruthy (storeSettings.bind fun st =>
      lookupCOGS st.customCOGS (skuKey item.sku)) = true
  · obtain ⟨q, hq, hq0⟩ := jsTruthy_eq_some h1
    simp [itemUnitCOGS, h1, hq, jsTruthy, hq0]
  · by_cases h2 : jsTruthy (storeSettings.bind fun st => st.defaultCOGSPercentage) = true
    · obtain ⟨r, hr, hr0⟩ := jsTruthy_eq_some h2
      have htr : jsTruthy (some r) = true := by simp [jsTruthy, hr0]
      simp [itemUnitCOGS, h1, hp2, hr, htr, jmul]
    · simp [itemUnitCOGS, h1, h2]

/-- C8 (counterexample): a quantity-0 line item whose price is missing
(or non-numeric) does NOT contribute 0 when the default-percentage
branch is taken: its unit COGS is `NaN` and JS evaluates `NaN * 0` to
`NaN`, which then poisons `orderCOGS` and `totalCOGS`.  The claim's
"regardless of the item's price" fails for a non-numeric price. -/
theorem c8_counterexample :
    itemContribution (some ⟨some 50, []⟩) ⟨none, 0, none⟩ = none ∧
    ¬ itemContribution (some ⟨some 50, []⟩) ⟨none, 0, none⟩ = some 0 ∧
    (calculateDashboardMetrics [⟨some "10", none, [⟨none, 0, none⟩]⟩]
        (some ⟨some 50, []⟩)).totalCOGS = none := by
  refine ⟨?_, ?_, ?_⟩
  · rfl
  · simp [itemContribution, itemUnitCOGS, lookupCOGS, skuKey, jsTruthy, jsParse, jmul]
  · rfl

/-- C8 (amended): a quantity-0 line item whose price parses to a number
contributes exactly 0 to the order's COGS (hence to `totalCOGS`),
regardless of the numeric value of the price.  (If the price is missing
or non-numeric and the default-percentage branch applies, the
contribution is `NaN` instead, per the counterexample.) -/
theorem c8_quantity_zero (storeSettings : Option StoreSettings) (item : LineItem)
    (hq : item.quantity = 0) (hp : (jsParse item.price).isSome) :
    itemContribution storeSettings item = some 0 := by
  obtain ⟨u, hu⟩ := Option.isSome_iff_exists.mp (itemUnitCOGS_isSome storeSettings item hp)
  simp [itemContribution, hu, hq, jmul]

/-- C8 (witness): a quantity-0 item with price `"9"` contributes 0. -/
theorem c8_witness :
    itemContribution (some ⟨some 50, [("X", 3)]⟩) ⟨some "Z", 0, some "9"⟩ = some 0 :=
  c8_quantity_zero (some ⟨some 50, [("X", 3)]⟩) ⟨some "Z", 0, some "9"⟩ rfl
    (by simp [jsParse, parseFloat])

/-! ### C3: missing / non-numeric prices -/

/-- A well-formed order: its `total_price` and all line-item prices
parse to numbers. -/
def wfOrder (o : Order) : Prop :=
  (jsParse o.total_price).isSome ∧ ∀ item ∈ o.line_items, (jsParse item.price).isSome

/-- The COGS fold over line items stays numeric when the accumulator is
numeric and all prices parse. -/
theorem cogsFold_isSome (storeSettings : Option StoreSettings) :
    ∀ (l : List LineItem) (acc : JSNum), acc.isSome →
      (∀ item ∈ l, (jsParse item.price).isSome) →
      (l.foldl (fun acc item => jadd acc (itemContribution storeSettings item)) acc).isSome
  | [], _, ha, _ => ha
  | item :: rest, acc, ha, h => by
      apply cogsFold_isSome storeSettings rest
      · obtain ⟨a, ha2⟩ := Option.isSome_iff_exists.mp ha
        obtain ⟨u, hu⟩ := Option.isSome_iff_exists.mp
          (itemUnitCOGS_isSome storeSettings item (h item (by simp)))
        simp [ha2, itemContribution, hu, jadd, jmul]
      · intro it hit
        exact h it (by simp [hit])

/-- An order all of whose line-item prices parse has numeric COGS. -/
theorem orderCOGS_isSome (storeSettings : Option StoreSettings) (o : Order)
    (h : ∀ item ∈ o.line_items, (jsParse item.price).isSome) :
    (orderCOGS storeSettings o).isSome :=
  cogsFold_isSome storeSettings o.line_items (some 0) rfl h

/-- The four running sums of the aggregation state are numeric. -/
def realState (s : AggState) : Prop :=
  s.totalRevenue.isSome ∧ s.totalCOGS.isSome ∧
    s.newCustomerRevenue.isSome ∧ s.returningCustomerRevenue.isSome

/-- Processing a well-formed order keeps all running sums numeric. -/
theorem processOrder_real (storeSettings : Option StoreSettings) (s : AggState)
    (o : Order) (hs : realState s) (ho : wfOrder o) :
    realState (processOrder storeSettings s o) := by
  obtain ⟨h1, h2, h3, h4⟩ := hs
  obtain ⟨r1, e1⟩ := Option.isSome_iff_exists.mp h1
  obtain ⟨r2, e2⟩ := Option.isSome_iff_exists.mp h2
  obtain ⟨r3, e3⟩ := Option.isSome_iff_exists.mp h3
  obtain ⟨r4, e4⟩ := Option.isSome_iff_exists.mp h4
  obtain ⟨rv, erv⟩ := Option.isSome_iff_exists.mp ho.1
  obtain ⟨oc, eoc⟩ := Option.isSome_iff_exists.mp (orderCOGS_isSome storeSettings o ho.2)
  by_cases he : strTruthy o.email = true
  · by_cases hm : o.email.getD "" ∈ s.customerEmails
    · simp [processOrder, he, hm, realState, e1, e2, e3, e4, erv, eoc, jadd]
    · simp [processOrder, he, hm, realState, e1, e2, e3, e4, erv, eoc, jadd]
  · simp [processOrder, he, realState, e1, e2, e3, e4, erv, eoc, jadd]

/-- Folding over well-formed orders keeps all running sums numeric. -/
theorem metricsFold_real (storeSettings : Option StoreSettings) :
    ∀ (orders : List Order) (s : AggState), realState s → (∀ o ∈ orders, wfOrder o) →
      realState (orders.foldl (processOrder storeSettings) s)
  | [], _, hs, _ => hs
  | o :: rest, s, hs, h => by
      apply metricsFold_real storeSettings rest
      · exact processOrder_real storeSettings s o hs (h o (by simp))
      · intro o2 ho2
        exact h o2 (by simp [ho2])

/-- C3 (counterexample): `calculateDashboardMetrics` has no NaN guard.
An order whose `total_price` is missing makes `totalRevenue` equal to
`NaN` (`parseFloat(undefined)` is `NaN` and `0 + NaN` is `NaN`), while
the same input with the price replaced by `"0"` yields `0`; so the
returned metrics are neither all real numbers nor equal to the metrics
of the zero-replaced input. -/
theorem c3_counterexample :
    (calculateDashboardMetrics [⟨none, none, []⟩] none).totalRevenue = none ∧
    (calculateDashboardMetrics [⟨some "0", none, []⟩] none).totalRevenue = some 0 ∧
    calculateDashboardMetrics [⟨none, none, []⟩] none ≠
      calculateDashboardMetrics [⟨some "0", none, []⟩] none := by
  refine ⟨rfl, ?_, ?_⟩
  · simp [calculateDashboardMetrics, processOrder, initState, orderCOGS, jsParse,
      parseFloat, digitsToNat, jadd, strTruthy]
  · intro h
    have h0 : (calculateDashboardMetrics [(⟨none, none, []⟩ : Order)] none).totalRevenue =
        (calculateDashboardMetrics [(⟨some "0", none, []⟩ : Order)] none).totalRevenue := by
      rw [h]
    rw [show (calculateDashboardMetrics [(⟨none, none, []⟩ : Order)] none).totalRevenue =
        none from rfl] at h0
    simp [calculateDashboardMetrics, processOrder, initState, orderCOGS, jsParse,
      parseFloat, digitsToNat, jadd, strTruthy] at h0

/-- C3 (amended): there is no NaN guard, so a missing or non-numeric
price is NOT treated as `0`; instead `NaN` propagates into the affected
fields (see the counterexample).  What does hold: when every order's
`total_price` and every line item's `price` parse to numbers, all
numeric fields of the returned metrics are real numbers. -/
theorem c3_wellformed (orders : List Order) (storeSettings : Option StoreSettings)
    (h : ∀ o ∈ orders, wfOrder o) :
    (calculateDashboardMetrics orders storeSettings).totalRevenue.isSome ∧
    (calculateDashboardMetrics orders storeSettings).totalCOGS.isSome ∧
    (calculateDashboardMetrics orders storeSettings).grossProfit.isSome ∧
    (calculateDashboardMetrics orders storeSettings).newCustomerRevenue.isSome ∧
    (calculateDashboardMetrics orders storeSettings).returningCustomerRevenue.isSome ∧
    (calculateDashboardMetrics orders storeSettings).averageOrderValue.isSome := by
  have hreal := metricsFold_real storeSettings orders initState
    (by simp [realState, initState]) h
  obtain ⟨h1, h2, h3, h4⟩ := hreal
  obtain ⟨a, ea⟩ := Option.isSome_iff_exists.mp h1
  obtain ⟨b, eb⟩ := Option.isSome_iff_exists.mp h2
  obtain ⟨c, ec⟩ := Option.isSome_iff_exists.mp h3
  obtain ⟨d, ed⟩ := Option.isSome_iff_exists.mp h4
  refine ⟨?_, ?_, ?_, ?_, ?_, ?_⟩
  · simp [calculateDashboardMetrics, ea]
  · simp [calculateDashboardMetrics, eb]
  · simp [calculateDashboardMetrics, ea, eb, jsub]
  · simp [calculateDashboardMetrics, ec]
  · simp [calculateDashboardMetrics, ed]
  · simp only [calculateDashboardMetrics]
    split
    · simp [ea, jdivN]
    · simp

/-- C3 (witness): a concrete all-numeric input produces all-real
metrics. -/
theorem c3_witness :
    (calculateDashboardMetrics [⟨some "10", some "a@b", [⟨some "K", 2, some "4"⟩]⟩]
        none).totalRevenue.isSome ∧
    (calculateDashboardMetrics [⟨some "10", some "a@b", [⟨some "K", 2, some "4"⟩]⟩]
        none).totalCOGS.isSome ∧
    (calculateDashboardMetrics [⟨some "10", some "a@b", [⟨some "K", 2, some "4"⟩]⟩]
        none).grossProfit.isSome ∧
    (calculateDashboardMetrics [⟨some "10", some "a@b", [⟨some "K", 2, some "4"⟩]⟩]
        none).newCustomerRevenue.isSome ∧
    (calculateDashboardMetrics [⟨some "10", some "a@b", [⟨some "K", 2, some "4"⟩]⟩]
        none).returningCustomerRevenue.isSome ∧
    (calculateDashboardMetrics [⟨some "10", some "a@b", [⟨some "K", 2, some "4"⟩]⟩]
        none).averageOrderValue.isSome := by
  apply c3_wellformed
  intro o ho
  simp only [List.mem_singleton] at ho
  subst ho
  constructor
  · simp [jsParse, parseFloat]
  · intro item hitem
    simp only [List.mem_singleton] at hitem
    subst hitem
    simp [jsParse, parseFloat]

/-! ### C4: customer-revenue split invariant -/

/-- IEEE-style numeric comparison: `x ≤ y` holds only between real
numbers (every comparison involving `NaN` is false). -/
def jle (x y : JSNum) : Prop :=
  ∃ a b, x = some a ∧ y = some b ∧ a ≤ b

/-- C4 (counterexample): the inequality
`newCustomerRevenue + returningCustomerRevenue ≤ totalRevenue` is not
true for EVERY order list: a single order with the (well-formed decimal)
`total_price` `"-5"` and no email gives buckets `0 + 0 = 0` but
`totalRevenue = -5`, and `0 ≤ -5` is false. -/
theorem c4_counterexample :
    ¬ jle (jadd (calculateDashboardMetrics [⟨some "-5", none, []⟩] none).newCustomerRevenue
            (calculateDashboardMetrics [⟨some "-5", none, []⟩] none).returningCustomerRevenue)
        (calculateDashboardMetrics [⟨some "-5", none, []⟩] none).totalRevenue := by
  have hnew : (calculateDashboardMetrics [(⟨some "-5", none, []⟩ : Order)]
      none).newCustomerRevenue = some 0 := rfl
  have hret : (calculateDashboardMetrics [(⟨some "-5", none, []⟩ : Order)]
      none).returningCustomerRevenue = some 0 := rfl
  have htot : (calculateDashboardMetrics [(⟨some "-5", none, []⟩ : Order)]
      none).totalRevenue = some (-5) := by
    simp [calculateDashboardMetrics, processOrder, initState, orderCOGS, jsParse,
      parseFloat, digitsToNat, jadd, strTruthy]
  intro hle
  obtain ⟨a, b, hab1, hab2, hab3⟩ := hle
  rw [hnew, hret] at hab1
  rw [htot] at hab2
  simp [jadd] at hab1
  simp only [Option.some_inj] at hab2
  rw [← hab1, ← hab2] at hab3
  norm_num at hab3

/-- The fold of `processOrder` preserves the bucket invariant
`new + returning ≤ total` as long as every processed order's
`total_price` parses to a nonnegative number. -/
theorem c4_fold (storeSettings : Option StoreSettings) :
    ∀ (orders : List Order) (s : AggState),
      (∀ o ∈ orders, ∃ q, jsParse o.total_price = some q ∧ 0 ≤ q) →
      (∃ a b c, s.newCustomerRevenue = some a ∧ s.returningCustomerRevenue = some b ∧
        s.totalRevenue = some c ∧ a + b ≤ c) →
      ∃ a b c, (orders.foldl (processOrder storeSettings) s).newCustomerRevenue = some a ∧
        (orders.foldl (processOrder storeSettings) s).returningCustomerRevenue = some b ∧
        (orders.foldl (processOrder storeSettings) s).totalRevenue = some c ∧ a + b ≤ c
  | [], _, _, hs => hs
  | o :: rest, s, h, hs => by
      apply c4_fold storeSettings rest
      · intro o2 ho2
        exact h o2 (by simp [ho2])
      · obtain ⟨a, b, c, ea, eb, ec, habc⟩ := hs
        obtain ⟨q, hq, hq0⟩ := h o (by simp)
        by_cases he : strTruthy o.email = true
        · by_cases hm : o.email.getD "" ∈ s.customerEmails
          · refine ⟨a, b + q, c + q, ?_, ?_, ?_, by linarith⟩ <;>
              simp [processOrder, he, hm, ea, eb, ec, hq, jadd]
          · refine ⟨a + q, b, c + q, ?_, ?_, ?_, by linarith⟩ <;>
              simp [processOrder, he, hm, ea, eb, ec, hq, jadd]
        · refine ⟨a, b, c + q, ?_, ?_, ?_, by linarith⟩ <;>
            simp [processOrder, he, ea, eb, ec, hq, jadd]

/-- C4 (amended): when every order's `total_price` parses to a
NONNEGATIVE number, the returned metrics satisfy
`newCustomerRevenue + returningCustomerRevenue ≤ totalRevenue`; and an
order whose email is absent (or empty) contributes to neither bucket.
(The unrestricted claim fails: a negative or non-numeric `total_price`
still enters `totalRevenue` but not the buckets, see the
counterexample.) -/
theorem c4_amended (storeSettings : Option StoreSettings) :
    (∀ orders : List Order,
      (∀ o ∈ orders, ∃ q, jsParse o.total_price = some q ∧ 0 ≤ q) →
      jle (jadd (calculateDashboardMetrics orders storeSettings).newCustomerRevenue
            (calculateDashboardMetrics orders storeSettings).returningCustomerRevenue)
          (calculateDashboardMetrics orders storeSettings).totalRevenue) ∧
    (∀ (orders : List Order) (o : Order), strTruthy o.email = false →
      (calculateDashboardMetrics (orders ++ [o]) storeSettings).newCustomerRevenue =
        (calculateDashboardMetrics orders storeSettings).newCustomerRevenue ∧
      (calculateDashboardMetrics (orders ++ [o]) storeSettings).returningCustomerRevenue =
        (calculateDashboardMetrics orders storeSettings).returningCustomerRevenue) := by
  constructor
  · intro orders h
    obtain ⟨a, b, c, ea, eb, ec, habc⟩ := c4_fold storeSettings orders initState h
      ⟨0, 0, 0, rfl, rfl, rfl, by norm_num⟩
    exact ⟨a + b, c, by simp [calculateDashboardMetrics, ea, eb, jadd],
      by simp [calculateDashboardMetrics, ec], habc⟩
  · intro orders o he
    constructor <;>
      simp [calculateDashboardMetrics, List.foldl_append, processOrder, he]

/-- C4 (witness): one order with price `"10"` and an email satisfies the
inequality. -/
theorem c4_witness :
    jle (jadd (calculateDashboardMetrics [⟨some "10", some "a@b", []⟩]
            none).newCustomerRevenue
          (calculateDashboardMetrics [⟨some "10", some "a@b", []⟩]
            none).returningCustomerRevenue)
        (calculateDashboardMetrics [⟨some "10", some "a@b", []⟩] none).totalRevenue := by
  apply (c4_amended none).1
  intro o ho
  simp only [List.mem_singleton] at ho
  subst ho
  refine ⟨10, ?_, by norm_num⟩
  simp [jsParse, parseFloat, digitsToNat]

/-! ### C6: arrival-order-dependent classification -/

/-- C6: for two orders `A`, `B` carrying the same (non-empty) email, the
input order `[A, B]` classifies `A`'s revenue as new-customer revenue
and `B`'s as returning-customer revenue, and the input order `[B, A]`
reverses the classification: the split is a function of arrival order,
not of email identity alone. -/
theorem c6_arrival_order (A B : Order) (storeSettings : Option StoreSettings)
    (e : String) (hA : A.email = some e) (hB : B.email = some e) (he : e ≠ "") :
    (calculateDashboardMetrics [A, B] storeSettings).newCustomerRevenue =
        jsParse A.total_price ∧
    (calculateDashboardMetrics [A, B] storeSettings).returningCustomerRevenue =
        jsParse B.total_price ∧
    (calculateDashboardMetrics [B, A] storeSettings).newCustomerRevenue =
        jsParse B.total_price ∧
    (calculateDashboardMetrics [B, A] storeSettings).returningCustomerRevenue =
        jsParse A.total_price := by
  refine ⟨?_, ?_, ?_, ?_⟩ <;>
    simp [calculateDashboardMetrics, processOrder, initState, strTruthy, hA, hB, he,
      jadd_zero_left]

/-- C6 (witness): two concrete orders with the same email, prices `"3"`
and `"4"`. -/
theorem c6_witness :
    (calculateDashboardMetrics [⟨some "3", some "x@y", []⟩, ⟨some "4", some "x@y", []⟩]
        none).newCustomerRevenue = jsParse (some "3") ∧
    (calculateDashboardMetrics [⟨some "3", some "x@y", []⟩, ⟨some "4", some "x@y", []⟩]
        none).returningCustomerRevenue = jsParse (some "4") ∧
    (calculateDashboardMetrics [⟨some "4", some "x@y", []⟩, ⟨some "3", some "x@y", []⟩]
        none).newCustomerRevenue = jsParse (some "4") ∧
    (calculateDashboardMetrics [⟨some "4", some "x@y", []⟩, ⟨some "3", some "x@y", []⟩]
        none).returningCustomerRevenue = jsParse (some "3") :=
  c6_arrival_order ⟨some "3", some "x@y", []⟩ ⟨some "4", some "x@y", []⟩ none "x@y"
    rfl rfl (by decide)

/-! ### C9: average order value -/

/-- C9: on an empty order list `averageOrderValue` is `0` (the division
is guarded by `orders.length > 0`, so no division by zero occurs), and
on a non-empty list it is `totalRevenue / orderCount`. -/
theorem c9_averageOrderValue (storeSettings : Option StoreSettings) :
    (calculateDashboardMetrics [] storeSettings).averageOrderValue = some 0 ∧
    (calculateDashboardMetrics [] storeSettings).orderCount = 0 ∧
    ∀ orders : List Order, 0 < orders.length →
      (calculateDashboardMetrics orders storeSettings).averageOrderValue =
        jdivN (calculateDashboardMetrics orders storeSettings).totalRevenue
          (calculateDashboardMetrics orders storeSettings).orderCount := by
  refine ⟨rfl, rfl, ?_⟩
  intro orders hpos
  simp [calculateDashboardMetrics, hpos]

/-- C9 (witness): one order of price `"8"` gives
`averageOrderValue = totalRevenue / 1`. -/
theorem c9_witness :
    (calculateDashboardMetrics [⟨some "8", none, []⟩] none).averageOrderValue =
      jdivN (calculateDashboardMetrics [⟨some "8", none, []⟩] none).totalRevenue
        (calculateDashboardMetrics [⟨some "8", none, []⟩] none).orderCount :=
  (c9_averageOrderValue none).2.2 [⟨some "8", none, []⟩] (by simp)

/-! ### C7: CSV upload round trip -/

/-- A parsed CSV record as produced by `csv.parse(…, {columns: true})`:
the handler probes the column names `SKU`/`sku`/`Sku` and
`COGS`/`cogs`/`Cogs`; absent columns are `undefined`. -/
structure CsvRow where
  SKU : Option String
  sku : Option String
  Sku : Option String
  COGS : Option String
  cogs : Option String
  Cogs : Option String
deriving DecidableEq

/-- JS `a || b` on possibly-missing strings: the first truthy operand,
else the last operand. -/
def orS (a b : Option String) : Option String :=
  if strTruthy a then a else b

/-- Embedding of the `records.forEach` block of the `/api/upload-cogs`
handler (`server.js` lines 164-171): resolve the SKU and COGS columns
case-insensitively via `||` chains, parse the COGS with `parseFloat`,
and store the pair when the SKU is truthy and the COGS is not `NaN`. -/
def processCOGSRecords (records : List CsvRow) : List (String × ℚ) :=
  records.foldl (fun customCOGS row =>
    let sk := orS row.SKU (orS row.sku row.Sku)
    let cg := jsParse (orS row.COGS (orS row.cogs row.Cogs))
    if strTruthy sk then
      match cg with
      | some c => insertCOGS customCOGS (sk.getD "") c
      | none => customCOGS
    else customCOGS) []

/-- C7: uploading a CSV whose rows are `SKU=X, COGS=1.50` produces a
`customCOGS` mapping with `X ↦ 1.50`, and `calculateDashboardMetrics`
with those settings resolves unit COGS exactly `1.50` for any line item
with SKU `X`, whatever the default percentage. -/
theorem c7_roundtrip (pct : Option ℚ) (item : LineItem) (hsku : item.sku = some "X") :
    lookupCOGS (processCOGSRecords [⟨some "X", none, none, some "1.50", none, none⟩])
        "X" = some (1.50 : ℚ) ∧
    itemUnitCOGS
        (some ⟨pct, processCOGSRecords [⟨some "X", none, none, some "1.50", none, none⟩]⟩)
        item = some (1.50 : ℚ) := by
  have hrec : processCOGSRecords [⟨some "X", none, none, some "1.50", none, none⟩] =
      [("X", 3/2)] := by
    simp [processCOGSRecords, orS, strTruthy, jsParse, parseFloat, digitsToNat, insertCOGS]
    norm_num
  rw [hrec]
  constructor
  · simp [lookupCOGS]
    norm_num
  · have hl : lookupCOGS [("X", 3/2)] (skuKey item.sku) = some (3/2) := by
      simp [hsku, skuKey, lookupCOGS]
    have h32 : (3/2 : ℚ) ≠ 0 := by norm_num
    rw [customCOGS_hit ⟨pct, [("X", 3/2)]⟩ item (3/2) hl h32]
    norm_num

/-- C7 (witness): a concrete item with SKU `X` under the uploaded
settings gets unit COGS `1.50`. -/
theorem c7_witness :
    lookupCOGS (processCOGSRecords [⟨some "X", none, none, some "1.50", none, none⟩])
        "X" = some (1.50 : ℚ) ∧
    itemUnitCOGS
        (some ⟨some 30, processCOGSRecords [⟨some "X", none, none, some "1.50", none, none⟩]⟩)
        ⟨some "X", 1, none⟩ = some (1.50 : ℚ) :=
  c7_roundtrip (some 30) ⟨some "X", 1, none⟩ rfl

/-! ### Ad-spend aggregation (`/api/ad-spend`, `fetchMetaAdSpend`,
`fetchGoogleAdSpend`) -/

/-- One day entry of the Meta insights response (`response.data.data`):
`spend` is a decimal string. -/
structure DayEntry where
  date : String
  spend : String
deriving DecidableEq

/-- Result shape `{total, daily}` of a platform fetch. -/
structure AdSpendResult where
  total : JSNum
  daily : List DayEntry
deriving DecidableEq

/-- A stored ad account row (platform is `"meta"` or `"google"`). -/
structure AdAccount where
  platform : String
  accountId : String
  accessToken : String
deriving DecidableEq

/-- One entry of the response `breakdown` array:
`{platform: 'Meta'|'Google', ...spendResult}`. -/
structure BreakdownEntry where
  platform : String
  total : JSNum
  daily : List DayEntry
deriving DecidableEq

/-- Environment of the external Meta insights HTTP call, indexed by
account id, access token and date range: `none` models a call that
throws (network/auth error), `some days` a successful response body. -/
abbrev MetaOracle := String → String → String → String → Option (List DayEntry)

/-- Embedding of `fetchMetaAdSpend` (`server.js` lines 283-304): on
success, `total` is the reduce-sum of `parseFloat(day.spend)` starting
from `0`; a thrown error is caught and degraded to `{total: 0, daily: []}`. -/
def fetchMetaAdSpend (oracle : MetaOracle)
    (accountId accessToken startDate endDate : String) : AdSpendResult :=
  match oracle accountId accessToken startDate endDate with
  | some days =>
      ⟨days.foldl (fun sum day => jadd sum (parseFloat day.spend)) (some 0), days⟩
  | none => ⟨some 0, []⟩

/-- Embedding of `fetchGoogleAdSpend` (`server.js` lines 306-316): the
body is a placeholder that always returns `{total: 0, daily: []}`. -/
def fetchGoogleAdSpend (_accountId _accessToken _startDate _endDate : String) :
    AdSpendResult :=
  ⟨some 0, []⟩

/-- Embedding of the `/api/ad-spend` handler loop (`server.js` lines
120-137): fold the Meta accounts, then the Google accounts, adding each
`total` into `totalAdSpend` and pushing a breakdown entry per call. -/
def adSpendHandler (oracle : MetaOracle) (adAccounts : List AdAccount)
    (startDate endDate : String) : JSNum × List BreakdownEntry :=
  let afterMeta :=
    (adAccounts.filter (fun a => a.platform == "meta")).foldl
      (fun acc a =>
        (jadd acc.1 (fetchMetaAdSpend oracle a.accountId a.accessToken startDate endDate).total,
         acc.2 ++ [⟨"Meta",
           (fetchMetaAdSpend oracle a.accountId a.accessToken startDate endDate).total,
           (fetchMetaAdSpend oracle a.accountId a.accessToken startDate endDate).daily⟩]))
      (some 0, [])
  (adAccounts.filter (fun a => a.platform == "google")).foldl
    (fun acc a =>
      (jadd acc.1 (fetchGoogleAdSpend a.accountId a.accessToken startDate endDate).total,
       acc.2 ++ [⟨"Google",
         (fetchGoogleAdSpend a.accountId a.accessToken startDate endDate).total,
         (fetchGoogleAdSpend a.accountId a.accessToken startDate endDate).daily⟩]))
    afterMeta

/-- Sum of a list of JS numbers, left fold of `+=` starting from `0`. -/
def jsum (l : List JSNum) : JSNum := l.foldl jadd (some 0)

theorem foldl_jadd_eq : ∀ (l : List JSNum) (x : JSNum), l.foldl jadd x = jadd x (jsum l)
  | [], x => by simp [jsum, jadd_zero_right]
  | a :: t, x => by
      have h1 := foldl_jadd_eq t (jadd x a)
      have h2 := foldl_jadd_eq t (jadd (some 0) a)
      simp only [List.foldl_cons, jsum] at h1 h2 ⊢
      rw [h1, h2, jadd_zero_left, jadd_assoc]

theorem jsum_cons (a : JSNum) (t : List JSNum) : jsum (a :: t) = jadd a (jsum t) := by
  simp only [jsum, List.foldl_cons]
  rw [foldl_jadd_eq t (jadd (some 0) a), jadd_zero_left]
  rfl

theorem jsum_append (l1 l2 : List JSNum) :
    jsum (l1 ++ l2) = jadd (jsum l1) (jsum l2) := by
  simp only [jsum, List.foldl_append]
  exact foldl_jadd_eq l2 (l1.foldl jadd (some 0))

/-- The per-platform loop of the handler, in closed form: it adds the
sum of the call totals to the running total and appends one breakdown
entry per account. -/
theorem adFold (f : AdAccount → AdSpendResult) (pl : String) :
    ∀ (l : List AdAccount) (init : JSNum × List BreakdownEntry),
      l.foldl (fun acc a =>
          (jadd acc.1 (f a).total, acc.2 ++ [⟨pl, (f a).total, (f a).daily⟩])) init =
        (jadd init.1 (jsum (l.map (fun a => (f a).total))),
         init.2 ++ l.map (fun a => (⟨pl, (f a).total, (f a).daily⟩ : BreakdownEntry)))
  | [], init => by simp [jsum, jadd_zero_right]
  | a :: t, init => by
      rw [List.foldl_cons, adFold f pl t]
      simp [jsum_cons, jadd_assoc]

/-- Dropping list elements whose summand is zero does not change the
JS sum. -/
theorem jsum_filter (f : AdAccount → JSNum) (p : AdAccount → Bool) :
    ∀ l : List AdAccount, (∀ a ∈ l, p a = false → f a = some 0) →
      jsum (l.map f) = jsum ((l.filter p).map f)
  | [], _ => rfl
  | a :: t, h => by
      have ht := jsum_filter f p t (fun a2 ha2 => h a2 (by simp [ha2]))
      by_cases hp : p a = true
      · rw [List.map_cons, jsum_cons, List.filter_cons_of_pos hp, List.map_cons,
          jsum_cons, ht]
      · have hz : f a = some 0 := h a (by simp) (by simpa using hp)
        rw [List.map_cons, jsum_cons, hz, jadd_zero_left,
          List.filter_cons_of_neg (by simpa using hp), ht]

/-- A list of zero summands sums to zero. -/
theorem jsum_zeros : ∀ l : List JSNum, (∀ x ∈ l, x = some 0) → jsum l = some 0
  | [], _ => rfl
  | a :: t, h => by
      rw [jsum_cons, h a (by simp), jadd_zero_left]
      exact jsum_zeros t (fun x hx => h x (by simp [hx]))

/-- Closed form of the `/api/ad-spend` handler: `totalAdSpend` is the
JS sum of the Meta call totals plus the Google call totals, and
`breakdown` is the Meta entries followed by the Google entries. -/
theorem adSpendHandler_eq (oracle : MetaOracle) (adAccounts : List AdAccount)
    (startDate endDate : String) :
    adSpendHandler oracle adAccounts startDate endDate =
      (jadd (jsum ((adAccounts.filter (fun a => a.platform == "meta")).map
              (fun a =>
                (fetchMetaAdSpend oracle a.accountId a.accessToken startDate endDate).total)))
            (jsum ((adAccounts.filter (fun a => a.platform == "google")).map
              (fun a => (fetchGoogleAdSpend a.accountId a.accessToken startDate endDate).total))),
       ((adAccounts.filter (fun a => a.platform == "meta")).map
          (fun a => (⟨"Meta",
            (fetchMetaAdSpend oracle a.accountId a.accessToken startDate endDate).total,
            (fetchMetaAdSpend oracle a.accountId a.accessToken startDate endDate).daily⟩ :
              BreakdownEntry))) ++
        ((adAccounts.filter (fun a => a.platform == "google")).map
          (fun a => (⟨"Google",
            (fetchGoogleAdSpend a.accountId a.accessToken startDate endDate).total,
            (fetchGoogleAdSpend a.accountId a.accessToken startDate endDate).daily⟩ :
              BreakdownEntry)))) := by
  unfold adSpendHandler
  rw [adFold (fun a => fetchMetaAdSpend oracle a.accountId a.accessToken startDate endDate)
      "Meta",
    adFold (fun a => fetchGoogleAdSpend a.accountId a.accessToken startDate endDate)
      "Google"]
  simp [jadd_zero_left]

/-! ### C5: per-call failure isolation -/

/-- C5: (i) a failing Meta call degrades to `{total: 0, daily: []}`;
(ii) the Google part of the breakdown is the same whatever the Meta
oracle does, so one platform's failures leave the other platform's
totals unchanged; (iii) `totalAdSpend` equals the JS sum of the totals
of the calls that did not fail (the non-failing Meta calls followed by
the Google calls, which never throw). -/
theorem c5_failure_isolation (oracle : MetaOracle) (adAccounts : List AdAccount)
    (startDate endDate : String) :
    (∀ accountId accessToken,
      oracle accountId accessToken startDate endDate = none →
      fetchMetaAdSpend oracle accountId accessToken startDate endDate = ⟨some 0, []⟩) ∧
    (∀ oracle2 : MetaOracle,
      (adSpendHandler oracle adAccounts startDate endDate).2.filter
          (fun b => b.platform == "Google") =
        (adSpendHandler oracle2 adAccounts startDate endDate).2.filter
          (fun b => b.platform == "Google")) ∧
    (adSpendHandler oracle adAccounts startDate endDate).1 =
      jsum ((((adAccounts.filter (fun a => a.platform == "meta")).filter
            (fun a => (oracle a.accountId a.accessToken startDate endDate).isSome)).map
          (fun a =>
            (fetchMetaAdSpend oracle a.accountId a.accessToken startDate endDate).total)) ++
        ((adAccounts.filter (fun a => a.platform == "google")).map
          (fun a => (fetchGoogleAdSpend a.accountId a.accessToken startDate endDate).total))) := by
  refine ⟨?_, ?_, ?_⟩
  · intro accountId accessToken h
    simp [fetchMetaAdSpend, h]
  · intro oracle2
    rw [adSpendHandler_eq, adSpendHandler_eq]
    simp [List.filter_append, List.filter_map, Function.comp]
  · rw [adSpendHandler_eq, jsum_append]
    have hz : ∀ a ∈ adAccounts.filter (fun a => a.platform == "meta"),
        (fun a2 =>
          (oracle a2.accountId a2.accessToken startDate endDate).isSome) a = false →
        (fun a2 =>
          (fetchMetaAdSpend oracle a2.accountId a2.accessToken startDate endDate).total) a =
          some 0 := by
      intro a _ hp
      have hnone : oracle a.accountId a.accessToken startDate endDate = none :=
        Option.not_isSome_iff_eq_none.mp (by simpa using hp)
      simp [fetchMetaAdSpend, hnone]
    rw [jsum_filter _ _ (adAccounts.filter (fun a => a.platform == "meta")) hz]

/-- C5 (witness): a Meta call whose external read throws returns
`{total: 0, daily: []}`. -/
theorem c5_witness :
    fetchMetaAdSpend (fun _ _ _ _ => none) "acct" "tok" "2024-01-01" "2024-01-31" =
      ⟨some 0, []⟩ :=
  (c5_failure_isolation (fun _ _ _ _ => none) [] "2024-01-01" "2024-01-31").1
    "acct" "tok" rfl

/-! ### C10: Google ads are a placeholder -/

/-- C10: `fetchGoogleAdSpend` always returns `{total: 0, daily: []}`;
every `Google` entry of the handler's breakdown therefore has total `0`,
and removing all Google accounts from the account list leaves
`totalAdSpend` unchanged — Google accounts never contribute to it. -/
theorem c10_google_zero :
    (∀ accountId accessToken startDate endDate : String,
      fetchGoogleAdSpend accountId accessToken startDate endDate = ⟨some 0, []⟩) ∧
    (∀ (oracle : MetaOracle) (adAccounts : List AdAccount) (startDate endDate : String),
      ∀ b ∈ (adSpendHandler oracle adAccounts startDate endDate).2,
        b.platform = "Google" → b.total = some 0) ∧
    (∀ (oracle : MetaOracle) (adAccounts : List AdAccount) (startDate endDate : String),
      (adSpendHandler oracle adAccounts startDate endDate).1 =
        (adSpendHandler oracle (adAccounts.filter (fun a => !(a.platform == "google")))
          startDate endDate).1) := by
  refine ⟨fun _ _ _ _ => rfl, ?_, ?_⟩
  · intro oracle adAccounts startDate endDate b hb hplat
    rw [adSpendHandler_eq] at hb
    simp only [List.mem_append, List.mem_map] at hb
    rcases hb with ⟨a, _, rfl⟩ | ⟨a, _, rfl⟩
    · simp at hplat
    · rfl
  · intro oracle adAccounts startDate endDate
    have hM : (adAccounts.filter (fun a => !(a.platform == "google"))).filter
        (fun a => a.platform == "meta") =
        adAccounts.filter (fun a => a.platform == "meta") := by
      rw [List.filter_filter]
      apply List.filter_congr
      intro a _
      by_cases hm : a.platform = "meta"
      · simp [hm]
      · have hf : (a.platform == "meta") = false := by simpa [beq_iff_eq] using hm
        simp [hf]
    have hG : (adAccounts.filter (fun a => !(a.platform == "google"))).filter
        (fun a => a.platform == "google") = [] := by
      rw [List.filter_filter]
      have hfalse : ∀ a : AdAccount,
          ((a.platform == "google") && !(a.platform == "google")) = false := by
        intro a
        cases a.platform == "google" <;> rfl
      simp [hfalse]
    rw [adSpendHandler_eq, adSpendHandler_eq, hM, hG]
    simp only [List.map_nil]
    have hzero : jsum ((adAccounts.filter (fun a => a.platform == "google")).map
        (fun a => (fetchGoogleAdSpend a.accountId a.accessToken startDate endDate).total)) =
        some 0 := by
      apply jsum_zeros
      intro x hx
      simp only [List.mem_map] at hx
      obtain ⟨a, _, rfl⟩ := hx
      rfl
    rw [hzero, jadd_zero_right, show jsum [] = some 0 from rfl, jadd_zero_right]

/-- C10 (witness): with one Google account and a failing Meta oracle,
the single breakdown entry is a Google entry with total `0`. -/
theorem c10_witness :
    (⟨"Google", (some 0 : JSNum), ([] : List DayEntry)⟩ : BreakdownEntry).total = some 0 := by
  have hmem : (⟨"Google", (some 0 : JSNum), ([] : List DayEntry)⟩ : BreakdownEntry) ∈
      (adSpendHandler (fun _ _ _ _ => none) [⟨"google", "g1", "tok"⟩] "s" "e").2 := by
    rw [adSpendHandler_eq]
    simp [fetchGoogleAdSpend]
  exact c10_google_zero.2.1 (fun _ _ _ _ => none) [⟨"google", "g1", "tok"⟩] "s" "e"
    ⟨"Google", some 0, []⟩ hmem rfl
